import Mathlib

/-
  Verification development for the HubChannel session/permissions client
  (src/utils/hub-channel.js). The class wraps a phoenix channel; we embed
  its state and the pure content of its methods: permission-gated calls,
  the receive handlers of the promise-returning RPCs, the permission-token
  bookkeeping, entry-timing flags and the blocked-session set. Effects on
  the outside world (channel pushes, dispatched events, scheduled timers,
  NAF adapter calls) are returned as explicit lists.
-/

set_option autoImplicit false

namespace HubChannelModel

/-- `MS_PER_DAY = 1000 * 60 * 60 * 24`. -/
def MS_PER_DAY : Int := 1000 * 60 * 60 * 24

/-- `MS_PER_MONTH = 1000 * 60 * 60 * 24 * 30`. -/
def MS_PER_MONTH : Int := 1000 * 60 * 60 * 24 * 30

/-- Calendar fields of a JS `Date` rendered in client local time:
`getFullYear()`, `getMonth()`, `getDate()`. -/
structure DateFields where
  fullYear : Int
  month : Int
  date : Int
  deriving DecidableEq

/-- `isSameMonth(da, db)`. -/
def isSameMonth (da db : DateFields) : Bool :=
  da.fullYear == db.fullYear && da.month == db.month

/-- `isSameDay(da, db)`. -/
def isSameDay (da db : DateFields) : Bool :=
  isSameMonth da db && da.date == db.date

/-- The decoded JWT payload held in `this._permissions`: permission claims
(name to boolean) plus the optional `exp` claim (seconds since epoch). -/
structure PermsObj where
  perms : List (String × Bool)
  exp : Option Int
  deriving DecidableEq

/-- The empty object `{}` the permission cache starts as and is reset to. -/
def emptyPerms : PermsObj := ⟨[], none⟩

/-- Truthiness of the property lookup `permsObj[name]` (absent is falsy). -/
def PermsObj.get (p : PermsObj) (name : String) : Bool :=
  (p.perms.lookup name).getD false

/-- The slice of the persistent store the class reads:
`store.state.credentials.token` and `store.state.activity.lastEnteredAt`
(the latter as epoch milliseconds, `none` when absent). -/
structure StoreState where
  credentialsToken : Option String
  lastEnteredAt : Option Int
  deriving DecidableEq

/-- Mutable state of a `HubChannel` instance. -/
structure HubState where
  store : StoreState
  signedIn : Bool
  permissions : PermsObj
  blockedSessionIds : Finset String
  deriving DecidableEq

/-- JS truthiness of an optional string, for `!!this.store.state.credentials.token`. -/
def truthyStr : Option String → Bool
  | none => false
  | some s => !(s == "")

/-- The constructor: `_signedIn = !!token`, `_permissions = {}`,
`_blockedSessionIds = new Set()`. -/
def initHubChannel (store : StoreState) : HubState :=
  { store := store
    signedIn := truthyStr store.credentialsToken
    permissions := emptyPerms
    blockedSessionIds := ∅ }

/-- `can(permission)`: truthiness of `this._permissions && this._permissions[permission]`
(the field always holds an object here, hence the plain lookup). -/
def can (st : HubState) (permission : String) : Bool :=
  st.permissions.get permission

/-- A message pushed on the phoenix channel: event name and JSON-ish payload. -/
structure PushMsg where
  event : String
  payload : List (String × String)
  deriving DecidableEq

/-- `updateScene = url => ...`: the sentinel return value (`none` is JS
`undefined`) and the channel pushes performed. -/
def updateScene (st : HubState) (url : String) : Option String × List PushMsg :=
  if !(st.permissions.get "update_hub") then (some "unauthorized", [])
  else (none, [⟨"update_scene", [("url", url)]⟩])

/-- `rename = name => ...`. -/
def rename (st : HubState) (name : String) : Option String × List PushMsg :=
  if !(st.permissions.get "update_hub") then (some "unauthorized", [])
  else (none, [⟨"update_hub", [("name", name)]⟩])

/-- `closeHub = () => ...`. -/
def closeHub (st : HubState) : Option String × List PushMsg :=
  if !(st.permissions.get "close_hub") then (some "unauthorized", [])
  else (none, [⟨"close_hub", []⟩])

/-- Entry-timing flags computed by `getEntryTimingFlags`. -/
structure EntryTimingFlags where
  isNewDaily : Bool
  isNewMonthly : Bool
  isNewDayWindow : Bool
  isNewMonthWindow : Bool
  deriving DecidableEq

/-- JS falsiness of the stored numeric timestamp (`!storedLastEnteredAt`):
absent or zero. -/
def falsyNum : Option Int → Bool
  | none => true
  | some n => n == 0

/-- `getEntryTimingFlags`. `dateOf` is the browser's epoch-ms to local
calendar-fields conversion (`new Date(ms)` observed through
`getFullYear/getMonth/getDate`); `nowMs` is `new Date()` as epoch ms. -/
def getEntryTimingFlags (dateOf : Int → DateFields) (nowMs : Int) (st : HubState) : EntryTimingFlags :=
  let storedLastEnteredAt := st.store.lastEnteredAt
  if falsyNum storedLastEnteredAt then ⟨true, true, true, true⟩
  else
    let t := storedLastEnteredAt.getD 0
    let msSinceLastEntered := nowMs - t
    { isNewDaily := !(isSameDay (dateOf nowMs) (dateOf t))
      isNewMonthly := !(isSameMonth (dateOf nowMs) (dateOf t))
      isNewDayWindow := decide (msSinceLastEntered > MS_PER_DAY)
      isNewMonthWindow := decide (msSinceLastEntered > MS_PER_MONTH) }

/-- Outcome of a promise settled by a channel acknowledgment. -/
inductive PromiseOutcome
  | resolved
  | rejected
  deriving DecidableEq

/-- Result of `setPermissionsFromToken`: the new state, the locally
dispatched event names, and the `setTimeout` delays scheduled (in ms;
`none` stands for the NaN delay of a token with no `exp` claim). -/
structure TokenEffect where
  state : HubState
  events : List String
  timers : List (Option Int)
  deriving DecidableEq

/-- `setPermissionsFromToken = token => ...`: decode (unverified), replace
the permission cache, dispatch `permissions_updated`, and schedule a
refresh at `new Date(exp * 1000 - 60 * 1000) - new Date()` ms. -/
def setPermissionsFromToken (jwtDecode : String → PermsObj) (nowMs : Int)
    (st : HubState) (token : String) : TokenEffect :=
  let decoded := jwtDecode token
  let nextRefresh := decoded.exp.map (fun e => e * 1000 - 60 * 1000 - nowMs)
  { state := { st with permissions := decoded }
    events := ["permissions_updated"]
    timers := [nextRefresh] }

/-- A channel acknowledgment: `"ok"` with a response, or `"error"` with a
reason string. -/
inductive Ack (α : Type)
  | ok (res : α)
  | error (reason : String)

/-- One settled RPC: resulting state, dispatched events, scheduled timers,
and how the promise was settled. -/
structure RpcStep where
  state : HubState
  events : List String
  timers : List (Option Int)
  outcome : PromiseOutcome
  deriving DecidableEq

/-- The `receive` handlers of `signIn`; the ok payload carries `perms_token`. -/
def signInReceive (jwtDecode : String → PermsObj) (nowMs : Int) (st : HubState) :
    Ack String → RpcStep
  | .ok permsToken =>
    let eff := setPermissionsFromToken jwtDecode nowMs st permsToken
    { state := { eff.state with signedIn := true }
      events := eff.events
      timers := eff.timers
      outcome := .resolved }
  | .error reason =>
    if reason == "invalid_token" then
      { state := st, events := [], timers := [], outcome := .resolved }
    else
      { state := st, events := [], timers := [], outcome := .rejected }

/-- The `receive` handlers of `signOut`. -/
def signOutReceive (st : HubState) : Ack Unit → RpcStep
  | .ok _ =>
    { state := { st with permissions := emptyPerms, signedIn := false }
      events := ["permissions_updated"]
      timers := []
      outcome := .resolved }
  | .error _ =>
    { state := st, events := [], timers := [], outcome := .rejected }

/-- Settlement of the `getHost` promise (`resolve(res.host)`). -/
inductive HostOutcome
  | resolved (host : String)
  | rejected
  deriving DecidableEq

/-- The `receive` handlers of `getHost`; the ok response carries `host`. -/
def getHostReceive : Ack String → HostOutcome
  | .ok host => .resolved host
  | .error _ => .rejected

/-- Settlement of the `pin` promise (`resolve` with the raw response). -/
inductive PinOutcome (α : Type)
  | resolved (res : α)
  | rejected
  deriving DecidableEq

/-- The `receive` handlers of `pin`. -/
def pinReceive {α : Type} : Ack α → PinOutcome α
  | .ok res => .resolved res
  | .error _ => .rejected

/-- Settlement of the `fetchPermissions` promise
(`resolve({ permsToken, permissions })`). -/
inductive FetchOutcome
  | resolved (permsToken : String) (permissions : PermsObj)
  | rejected
  deriving DecidableEq

/-- One settled `fetchPermissions` call. -/
structure FetchStep where
  state : HubState
  events : List String
  timers : List (Option Int)
  outcome : FetchOutcome
  deriving DecidableEq

/-- The `receive` handlers of `fetchPermissions`; the ok response carries
`perms_token`, fed through `setPermissionsFromToken`. -/
def fetchPermissionsReceive (jwtDecode : String → PermsObj) (nowMs : Int)
    (st : HubState) : Ack String → FetchStep
  | .ok permsToken =>
    let eff := setPermissionsFromToken jwtDecode nowMs st permsToken
    { state := eff.state
      events := eff.events
      timers := eff.timers
      outcome := .resolved permsToken eff.state.permissions }
  | .error _ =>
    { state := st, events := [], timers := [], outcome := .rejected }

/-- Calls made on the NAF networking adapter / entities. -/
inductive AdapterCall
  | block (sessionId : String)
  | unblock (sessionId : String)
  | completeSync (sessionId : String)
  deriving DecidableEq

/-- `hide = sessionId => ...`: adapter block plus `Set.add`. -/
def hide (st : HubState) (sessionId : String) : HubState × List AdapterCall :=
  ({ st with blockedSessionIds := insert sessionId st.blockedSessionIds },
    [.block sessionId])

/-- `unhide = sessionId => ...`: early return when not blocked, otherwise
adapter unblock, a full entity sync, and `Set.delete`. -/
def unhide (st : HubState) (sessionId : String) : HubState × List AdapterCall :=
  if sessionId ∈ st.blockedSessionIds then
    ({ st with blockedSessionIds := st.blockedSessionIds.erase sessionId },
      [.unblock sessionId, .completeSync sessionId])
  else (st, [])

/-- `isHidden = sessionId => this._blockedSessionIds.has(sessionId)`. -/
def isHidden (st : HubState) (sessionId : String) : Bool :=
  sessionId ∈ st.blockedSessionIds

/-- Default store slice: no credential token, no last-entry timestamp. -/
def emptyStore : StoreState := ⟨none, none⟩

/-- A freshly constructed channel over the empty store. -/
def st0 : HubState := initHubChannel emptyStore

/-- A state whose cached token grants `update_hub` but not `close_hub`. -/
def stAuth : HubState := { st0 with permissions := ⟨[("update_hub", true)], some 1000⟩ }

/-- A state with one blocked session. -/
def stBlocked : HubState := { st0 with blockedSessionIds := {"peer"} }

/-- A state whose store has last-entry timestamp 5 ms. -/
def stEntry : HubState := { st0 with store := ⟨none, some 5⟩ }

/-- A decoder returning a fixed payload with `exp = 1000`. -/
def decode1 : String → PermsObj := fun _ => ⟨[("update_hub", true)], some 1000⟩

/-- A local-time calendar conversion that is constant. -/
def constDate : Int → DateFields := fun _ => ⟨2024, 0, 1⟩

/-- C1: when the relevant cached permission flag is falsy, `rename`,
`updateScene` and `closeHub` each return the string "unauthorized" and
push nothing to the channel. -/
theorem gated_calls_unauthorized (st : HubState) (url name : String)
    (hu : st.permissions.get "update_hub" = false)
    (hc : st.permissions.get "close_hub" = false) :
    rename st name = (some "unauthorized", []) ∧
    updateScene st url = (some "unauthorized", []) ∧
    closeHub st = (some "unauthorized", []) := by
  simp [rename, updateScene, closeHub, hu, hc]

/-- Witness for C1 at the freshly constructed (empty) permission cache. -/
theorem gated_calls_unauthorized_witness :
    (st0.permissions.get "update_hub" = false ∧
      st0.permissions.get "close_hub" = false) ∧
    (rename st0 "n" = (some "unauthorized", []) ∧
      updateScene st0 "u" = (some "unauthorized", []) ∧
      closeHub st0 = (some "unauthorized", [])) :=
  ⟨⟨rfl, rfl⟩, gated_calls_unauthorized st0 "u" "n" rfl rfl⟩

/-- C2: on an "ok" sign_in acknowledgment carrying a permission token,
`signedIn` becomes true, the permission set equals the JWT-decoded
contents of that token, and the promise resolves. -/
theorem signIn_ok_sets_state (jwtDecode : String → PermsObj) (nowMs : Int)
    (st : HubState) (tok : String) :
    (signInReceive jwtDecode nowMs st (.ok tok)).state.signedIn = true ∧
    (signInReceive jwtDecode nowMs st (.ok tok)).state.permissions = jwtDecode tok ∧
    (signInReceive jwtDecode nowMs st (.ok tok)).outcome = .resolved :=
  ⟨rfl, rfl, rfl⟩

/-- C3: the sign_in error handler resolves exactly for reason
"invalid_token" (leaving the state, in particular `signedIn`, untouched)
and rejects otherwise; the error handlers of `signOut`, `getHost`, `pin`
and `fetchPermissions` always reject. -/
theorem remote_failures_reject (jwtDecode : String → PermsObj) (nowMs : Int)
    (st : HubState) (reason : String) :
    signInReceive jwtDecode nowMs st (.error reason) =
      { state := st, events := [], timers := []
        outcome := if reason == "invalid_token" then .resolved else .rejected } ∧
    signOutReceive st (.error reason) =
      { state := st, events := [], timers := [], outcome := .rejected } ∧
    getHostReceive (.error reason) = .rejected ∧
    @pinReceive Unit (.error reason) = .rejected ∧
    fetchPermissionsReceive jwtDecode nowMs st (.error reason) =
      { state := st, events := [], timers := [], outcome := .rejected } := by
  refine ⟨?_, rfl, rfl, rfl, rfl⟩
  by_cases h : reason == "invalid_token" <;> simp [signInReceive, h]

/-- C4: with a present (non-falsy) stored timestamp, `isNewDaily` is false
exactly when the stored instant and now agree on local calendar year,
month and day-of-month, and `isNewMonthly` is false exactly when they
agree on year and month. -/
theorem entry_flags_calendar (dateOf : Int → DateFields) (nowMs t : Int)
    (st : HubState) (hs : st.store.lastEnteredAt = some t) (ht : t ≠ 0) :
    ((getEntryTimingFlags dateOf nowMs st).isNewDaily = false ↔
      ((dateOf nowMs).fullYear = (dateOf t).fullYear ∧
        (dateOf nowMs).month = (dateOf t).month ∧
        (dateOf nowMs).date = (dateOf t).date)) ∧
    ((getEntryTimingFlags dateOf nowMs st).isNewMonthly = false ↔
      ((dateOf nowMs).fullYear = (dateOf t).fullYear ∧
        (dateOf nowMs).month = (dateOf t).month)) := by
  simp [getEntryTimingFlags, falsyNum, hs, ht, isSameDay, isSameMonth, and_assoc]

/-- Witness for C4 at a constant calendar conversion: both instants render
to the same calendar day, so both flags are false. -/
theorem entry_flags_calendar_witness :
    (stEntry.store.lastEnteredAt = some 5 ∧ (5 : Int) ≠ 0) ∧
    ((getEntryTimingFlags constDate 9 stEntry).isNewDaily = false ↔
      ((constDate 9).fullYear = (constDate 5).fullYear ∧
        (constDate 9).month = (constDate 5).month ∧
        (constDate 9).date = (constDate 5).date)) ∧
    ((getEntryTimingFlags constDate 9 stEntry).isNewMonthly = false ↔
      ((constDate 9).fullYear = (constDate 5).fullYear ∧
        (constDate 9).month = (constDate 5).month)) :=
  ⟨⟨rfl, by decide⟩, entry_flags_calendar constDate 9 5 stEntry rfl (by decide)⟩

/-- C5: with a present (non-falsy) stored timestamp, `isNewDayWindow` is
true exactly when strictly more than 86,400,000 ms have elapsed and
`isNewMonthWindow` exactly when strictly more than 2,592,000,000 ms have. -/
theorem entry_flags_window (dateOf : Int → DateFields) (nowMs t : Int)
    (st : HubState) (hs : st.store.lastEnteredAt = some t) (ht : t ≠ 0) :
    ((getEntryTimingFlags dateOf nowMs st).isNewDayWindow = true ↔
      nowMs - t > 86400000) ∧
    ((getEntryTimingFlags dateOf nowMs st).isNewMonthWindow = true ↔
      nowMs - t > 2592000000) := by
  have hd : MS_PER_DAY = 86400000 := by decide
  have hm : MS_PER_MONTH = 2592000000 := by decide
  simp [getEntryTimingFlags, falsyNum, hs, ht, hd, hm]

/-- Witness for C5: 9 - 5 = 4 ms elapsed exceeds neither window. -/
theorem entry_flags_window_witness :
    (stEntry.store.lastEnteredAt = some 5 ∧ (5 : Int) ≠ 0) ∧
    ((getEntryTimingFlags constDate 9 stEntry).isNewDayWindow = true ↔
      (9 : Int) - 5 > 86400000) ∧
    ((getEntryTimingFlags constDate 9 stEntry).isNewMonthWindow = true ↔
      (9 : Int) - 5 > 2592000000) :=
  ⟨⟨rfl, by decide⟩, entry_flags_window constDate 9 5 stEntry rfl (by decide)⟩

/-- C6: an "ok" sign_out acknowledgment clears the permission set to the
empty mapping, sets `signedIn` false, dispatches `permissions_updated`,
and resolves; an "error" acknowledgment leaves the state unchanged. -/
theorem signOut_ok_clears (st : HubState) :
    signOutReceive st (.ok ()) =
      { state := { st with permissions := emptyPerms, signedIn := false }
        events := ["permissions_updated"], timers := [], outcome := .resolved } ∧
    ∀ reason, signOutReceive st (.error reason) =
      { state := st, events := [], timers := [], outcome := .rejected } :=
  ⟨rfl, fun _ => rfl⟩

/-- C7: `hide` adds the session to the blocked set (so `isHidden` becomes
true); `unhide` of a session not in the set changes nothing and makes no
adapter calls; `unhide` of a blocked session removes it. -/
theorem hide_unhide_blocked (st : HubState) (s : String) :
    ((hide st s).1.blockedSessionIds = insert s st.blockedSessionIds ∧
      isHidden (hide st s).1 s = true) ∧
    (s ∉ st.blockedSessionIds → unhide st s = (st, [])) ∧
    (s ∈ st.blockedSessionIds →
      (unhide st s).1.blockedSessionIds = st.blockedSessionIds.erase s ∧
      isHidden (unhide st s).1 s = false ∧
      (unhide st s).2 = [.unblock s, .completeSync s]) := by
  refine ⟨⟨rfl, by simp [isHidden, hide]⟩, fun h => by simp [unhide, h], fun h => ?_⟩
  refine ⟨by simp [unhide, h], ?_, by simp [unhide, h]⟩
  simp [isHidden, unhide, h, Finset.not_mem_erase]

/-- Witness for C7: the no-op branch on a fresh state and the removal
branch on a state blocking "peer". -/
theorem hide_unhide_blocked_witness :
    ("peer" ∉ st0.blockedSessionIds ∧ unhide st0 "peer" = (st0, [])) ∧
    ("peer" ∈ stBlocked.blockedSessionIds ∧
      isHidden (unhide stBlocked "peer").1 "peer" = false) :=
  ⟨⟨by decide, (hide_unhide_blocked st0 "peer").2.1 (by decide)⟩,
    ⟨by decide, ((hide_unhide_blocked stBlocked "peer").2.2 (by decide)).2.1⟩⟩

/-- C8: for a decoded token with declared expiry `exp`, the single
scheduled refresh delay is `exp * 1000 - 60000 - now` ms (one minute
before expiry) and `permissions_updated` is dispatched immediately. -/
theorem token_refresh_schedule (jwtDecode : String → PermsObj) (nowMs : Int)
    (st : HubState) (tok : String) (e : Int)
    (hexp : (jwtDecode tok).exp = some e) :
    (setPermissionsFromToken jwtDecode nowMs st tok).timers =
      [some (e * 1000 - 60 * 1000 - nowMs)] ∧
    (setPermissionsFromToken jwtDecode nowMs st tok).events =
      ["permissions_updated"] := by
  simp [setPermissionsFromToken, hexp]

/-- Witness for C8 at a decoder declaring expiry 1000 s and now = 0. -/
theorem token_refresh_schedule_witness :
    (decode1 "t").exp = some 1000 ∧
    (setPermissionsFromToken decode1 0 st0 "t").timers =
      [some (1000 * 1000 - 60 * 1000 - 0)] ∧
    (setPermissionsFromToken decode1 0 st0 "t").events =
      ["permissions_updated"] :=
  ⟨rfl, token_refresh_schedule decode1 0 st0 "t" 1000 rfl⟩

/-- C9: `updateScene` is gated on the cached `update_hub` flag: it returns
"unauthorized" exactly when that flag is falsy, otherwise pushes one
`update_scene` request with the url — the same condition gating `rename`. -/
theorem updateScene_gated_update_hub (st : HubState) (url name : String) :
    ((updateScene st url).1 = some "unauthorized" ↔
      st.permissions.get "update_hub" = false) ∧
    (st.permissions.get "update_hub" = true →
      updateScene st url = (none, [⟨"update_scene", [("url", url)]⟩])) ∧
    ((updateScene st url).1 = some "unauthorized" ↔
      (rename st name).1 = some "unauthorized") := by
  by_cases h : st.permissions.get "update_hub" <;>
    simp [updateScene, rename, h]

/-- Witness for C9 at a cache granting `update_hub`: the push happens. -/
theorem updateScene_gated_update_hub_witness :
    stAuth.permissions.get "update_hub" = true ∧
    updateScene stAuth "u" = (none, [⟨"update_scene", [("url", "u")]⟩]) :=
  ⟨rfl, (updateScene_gated_update_hub stAuth "u" "n").2.1 rfl⟩

/-- C10: with an absent or falsy stored last-entry timestamp, all four
entry-timing flags are true. -/
theorem entry_flags_no_timestamp (dateOf : Int → DateFields) (nowMs : Int)
    (st : HubState)
    (h : st.store.lastEnteredAt = none ∨ st.store.lastEnteredAt = some 0) :
    getEntryTimingFlags dateOf nowMs st = ⟨true, true, true, true⟩ := by
  rcases h with h | h <;> simp [getEntryTimingFlags, falsyNum, h]

/-- Witness for C10 on the fresh state, whose store holds no timestamp. -/
theorem entry_flags_no_timestamp_witness :
    (st0.store.lastEnteredAt = none ∨ st0.store.lastEnteredAt = some 0) ∧
    getEntryTimingFlags constDate 9 st0 = ⟨true, true, true, true⟩ :=
  ⟨Or.inl rfl, entry_flags_no_timestamp constDate 9 st0 (Or.inl rfl)⟩

end HubChannelModel
